import Mathlib

/-!
# Verification of the NGO web-scraper field-extraction engine

Shallow embedding of `NGO_Web_Scraper.py`.  Pure string manipulation
(`str.strip`, `str.format`, the built-in generic phone regex `PHONE_RE`) is
translated into executable Lean functions.  Config-supplied regular
expressions are collaborator inputs (they come from the YAML file, not from
the source), so they are modelled abstractly as match functions:

* `SearchPat` models a compiled pattern's `re.search` under `re.I | re.S`,
  returning the group-0 text of the leftmost match;
* `FindPat` models `re.finditer` under `re.I`, returning the group-0 texts of
  all non-overlapping matches in position order;
* `PrefPat` models a boolean `re.search` test (used only inside the
  alternation `"(" ++ "|".join(prefer) ++ ")"`, whose search succeeds exactly
  when some branch matches somewhere);
* `CPPat` models the two-capture-group contact-person search, returning the
  groups and `lastindex` of the leftmost match.

Python `None` is `Option.none`; a raised exception is an `Except.error`.
The resolver functions return `none` for the spec's "no match" outcome.
-/

/-- Python whitespace for `str.strip` (ASCII fragment, the only part the
program's inputs exercise). -/
def pyWs (c : Char) : Bool :=
  c == ' ' || c == '\t' || c == '\n' || c == '\r' || c == '\x0b' || c == '\x0c'

/-- Python `s.strip()`: drop leading and trailing whitespace. -/
def pystrip (s : String) : String :=
  String.mk (((s.data.dropWhile pyWs).reverse.dropWhile pyWs).reverse)

/-- One pass of Python `str.format` field substitution, with fields limited to
`name` and `phone` (the only fields the program renders).  `none` models the
`KeyError` / `ValueError` that `str.format` raises on an unknown field or an
unbalanced brace. -/
def pyFormatGo (nameV phoneV : String) : Nat → List Char → Option (List Char)
  | 0, _ => none
  | _, [] => some []
  | fuel + 1, cs =>
    match cs with
    | '{' :: '{' :: rest => (pyFormatGo nameV phoneV fuel rest).map (fun r => '{' :: r)
    | '}' :: '}' :: rest => (pyFormatGo nameV phoneV fuel rest).map (fun r => '}' :: r)
    | '{' :: rest =>
      let fld := rest.takeWhile (fun c => c ≠ '}')
      match rest.dropWhile (fun c => c ≠ '}') with
      | '}' :: rest2 =>
        if String.mk fld = "name" then
          (pyFormatGo nameV phoneV fuel rest2).map (fun r => nameV.data ++ r)
        else if String.mk fld = "phone" then
          (pyFormatGo nameV phoneV fuel rest2).map (fun r => phoneV.data ++ r)
        else none
      | _ => none
    | '}' :: _ => none
    | c :: rest => (pyFormatGo nameV phoneV fuel rest).map (fun r => c :: r)
    | [] => some []

/-- Python `fmt.format(name=nameV, phone=phoneV)`. -/
def pyFormat (fmt nameV phoneV : String) : Option String :=
  (pyFormatGo nameV phoneV (fmt.data.length + 1) fmt.data).map String.mk

/-! ## The built-in generic phone pattern

Source line 9: `PHONE_RE = re.compile(r"(?:\+?\d[\s-]?){7,15}\d", re.M | re.I)`.
Neither flag is observable (the pattern has no anchors and no letters).  The
optional pieces inside one repetition are deterministic under backtracking:
refusing a present `+` leaves `\d` facing `+` (fail), and refusing a present
separator leaves the continuation — which always starts with `\+`, `\d` or the
final `\d` — facing a whitespace/hyphen character (fail).  So each repetition
has exactly one viable parse, and only the greedy repetition count `{7,15}`
backtracks, which `phoneLoop` implements directly. -/

/-- `\d` (the program's inputs are ASCII). -/
def isDigitCh (c : Char) : Bool := '0' ≤ c && c ≤ '9'

/-- `[\s-]` (ASCII fragment of `\s`, plus hyphen). -/
def isSepCh (c : Char) : Bool := pyWs c || c == '-'

/-- The optional trailing `[\s-]?` of one repetition (greedy). -/
def phoneSepOpt : List Char → List Char
  | [] => []
  | c :: rest => if isSepCh c then rest else c :: rest

/-- One repetition `\+?\d[\s-]?` of `PHONE_RE` (deterministic, see above). -/
def phoneRep : List Char → Option (List Char)
  | '+' :: c :: rest => if isDigitCh c then some (phoneSepOpt rest) else none
  | c :: rest => if isDigitCh c then some (phoneSepOpt rest) else none
  | [] => none

/-- Greedy `{7,15}` repetition followed by the final `\d`: prefer one more
repetition; on failure of the deeper alternative, accept the final digit here
provided at least 7 repetitions have been consumed.  Returns the remainder of
the input after the match.  `phoneRep` consumes at least one character, so
fuel `|cs| + 1` is never exhausted. -/
def phoneLoop : Nat → List Char → Nat → Option (List Char)
  | 0, _, _ => none
  | fuel + 1, cs, count =>
    let deeper : Option (List Char) :=
      if count < 15 then
        match phoneRep cs with
        | some rest => phoneLoop fuel rest (count + 1)
        | none => none
      else none
    match deeper with
    | some r => some r
    | none =>
      if 7 ≤ count then
        match cs with
        | c :: rest => if isDigitCh c then some rest else none
        | [] => none
      else none

/-- `PHONE_RE` match attempt at the current position. -/
def phoneMatchHere (cs : List Char) : Option (List Char) :=
  phoneLoop (cs.length + 1) cs 0

/-- `PHONE_RE.finditer`: scan left to right, yield the leftmost match, resume
after it (non-overlapping); every match consumes at least one character, so
fuel `|cs| + 1` is never exhausted. -/
def phoneScan : Nat → List Char → List String
  | 0, _ => []
  | _, [] => []
  | fuel + 1, c :: cs =>
    match phoneMatchHere (c :: cs) with
    | some rem =>
      String.mk ((c :: cs).take ((c :: cs).length - rem.length)) :: phoneScan fuel rem
    | none => phoneScan fuel cs

/-- `[m.group(0) for m in PHONE_RE.finditer(text)]` (source line 54). -/
def phone_re_findall (s : String) : List String :=
  phoneScan (s.data.length + 1) s.data

/-! ## Abstract pattern types for config-supplied regexes -/

/-- `re.search(pat, text, re.I | re.S)`, as the group-0 text of the leftmost
match (`none` = no match). -/
def SearchPat : Type := String → Option String

/-- `re.finditer(pat, text, re.I)`, as the group-0 texts in position order. -/
def FindPat : Type := String → List String

/-- Boolean `re.search` test of one preference pattern. -/
def PrefPat : Type := String → Bool

/-- The parts of a Python match object the contact-person branch reads:
`group(1)`, `group(2)` and `lastindex` (`none` when the group did not
participate in the match / no group participated). -/
structure CPMatch where
  g1 : Option String
  g2 : Option String
  lastindex : Option Nat
deriving DecidableEq

/-- Contact-person pattern: `re.search(pat, text, re.I | re.S)` returning the
match object's groups. -/
def CPPat : Type := String → Option CPMatch

/-! ## Configuration data model (the YAML structure the source reads) -/

/-- A `static` value from the YAML: a string, or a list joined by
`apply_rules`. -/
inductive StaticVal where
  | str : String → StaticVal
  | seq : List String → StaticVal

/-- Python truthiness of a static value (`if rules.get("static")`): an empty
string and an empty list are falsy. -/
def StaticVal.truthy : StaticVal → Bool
  | .str s => s ≠ ""
  | .seq l => !l.isEmpty

/-- `"; ".join(v)` for a list, the string itself otherwise (source line 40). -/
def StaticVal.render : StaticVal → String
  | .str s => s
  | .seq l => String.intercalate "; " l

/-- A generic rule as `apply_rules` reads it.  `rules.get("regex_any", [])`
makes an absent pattern list indistinguishable from an empty one there, so it
is a plain list. -/
structure Rule where
  static : Option StaticVal
  regex_any : List SearchPat

/-- The phone rule.  `extract_phones` tests `"regex_any" in rules` (key
presence, not truthiness), so the pattern list is an `Option`;
`rules.get("prefer", [])` and `rules.get("required_min", 1)` use defaults. -/
structure PhoneRule where
  regex_any : Option (List FindPat)
  prefer : List PrefPat
  required_min : Option Int

/-- The contact-person selector (`sel["contact_person"]`). -/
structure CPRule where
  static : Option String
  page : Option String
  regex : Option CPPat
  format : Option String

/-- `selectors.og_name` entry. -/
structure OgName where
  url : Option String

/-- `cfg["selectors"]`. -/
structure Selectors where
  address : Rule
  phones : PhoneRule
  services : Rule
  contact_person : CPRule
  og_name : Option OgName

/-- One organization's configuration. -/
structure Config where
  contact_pages : List String
  selectors : Selectors

/-- The Page Parser view of one fetched page: exactly the queries the source
makes of a `BeautifulSoup` object.  For the two `og:site_name` meta tags,
`none` = tag absent, `some none` = tag present without a `content` attribute,
`some (some c)` = tag present with `content` `c`. -/
structure Soup where
  ogPropTag : Option (Option String)
  ogNameTag : Option (Option String)
  titleStr : Option String
  h1Text : Option String
  bodyText : String

/-- Exceptions the engine can raise. -/
inductive PyErr where
  | valueError : String → PyErr
  | indexError : PyErr
  | attributeError : PyErr
  | formatError : PyErr
deriving DecidableEq

/-- The output record (source lines 102-110). -/
structure Record where
  ngoName : String
  website : String
  address : String
  servicesOffered : String
  contactPerson : String
  contactNumber : String
  sourcePages : String
deriving DecidableEq

/-! ## The resolvers -/

/-- `apply_rules` (source lines 38-45): a truthy `static` wins, joined with
`"; "` when it is a list; otherwise the first pattern whose search succeeds
yields its stripped group-0 text; otherwise `None`. -/
def firstMatch : List SearchPat → String → Option String
  | [], _ => none
  | p :: ps, text =>
    match p text with
    | some m => some (pystrip m)
    | none => firstMatch ps text

def apply_rules (text : String) (rules : Rule) : Option String :=
  match rules.static with
  | some v => if v.truthy then some v.render else firstMatch rules.regex_any text
  | none => firstMatch rules.regex_any text

/-- Candidate collection of `extract_phones` (source lines 49-54): with a
`regex_any` key, all matches of all patterns in pattern-then-position order;
without the key, the built-in `PHONE_RE` matches. -/
def collect_phones (text : String) (rules : PhoneRule) : List String :=
  match rules.regex_any with
  | some pats => pats.foldl (fun acc p => acc ++ p text) []
  | none => phone_re_findall text

/-- `list(dict.fromkeys(phones))`: keep the first occurrence of each value. -/
def dedupAux : List String → List String → List String
  | _, [] => []
  | seen, x :: xs =>
    if x ∈ seen then dedupAux seen xs else x :: dedupAux (x :: seen) xs

def dedupFirst (l : List String) : List String := dedupAux [] l

/-- Search of the combined preference alternation
`re.compile("(" + "|".join(prefer) + ")", re.I)` against one candidate: it
succeeds exactly when some branch matches somewhere. -/
def prefMatch (prefer : List PrefPat) (p : String) : Bool :=
  prefer.any (fun q => q p)

/-- The sort key `lambda p: 0 if pref.search(p) else 1` (source line 59). -/
def prefKey (prefer : List PrefPat) (p : String) : Nat :=
  if prefMatch prefer p then 0 else 1

/-- `phones.sort(key=...)`: Python's sort is stable, and a stable sort is
uniquely determined by the key, so any stable algorithm is a faithful model;
we use insertion sort. -/
def rankPref (prefer : List PrefPat) (l : List String) : List String :=
  l.insertionSort (fun a b => prefKey prefer a ≤ prefKey prefer b)

/-- The deduplicated candidate list (source line 55). -/
def phoneCands (text : String) (rules : PhoneRule) : List String :=
  dedupFirst (collect_phones text rules)

/-- The candidate list after the optional preference sort (source lines
56-59): `if prefer:` skips the sort for an absent or empty list. -/
def phoneRanked (text : String) (rules : PhoneRule) : List String :=
  if rules.prefer.isEmpty then phoneCands text rules
  else rankPref rules.prefer (phoneCands text rules)

/-- `k = max(1, rules.get("required_min", 1))` (source line 60). -/
def phoneMinK (rules : PhoneRule) : Nat :=
  (max 1 (rules.required_min.getD 1)).toNat

/-- `extract_phones` (source lines 48-61): `", ".join(phones[:max(k, 3)]) if
len(phones) >= k else None`. -/
def extract_phones (text : String) (rules : PhoneRule) : Option String :=
  if phoneMinK rules ≤ (phoneRanked text rules).length then
    some (String.intercalate ", " ((phoneRanked text rules).take (max (phoneMinK rules) 3)))
  else none

/-- `get_og_name` (source lines 28-35).  `find(property=...) or find(name=...)`
selects the property-keyed tag whenever it exists — even with a falsy
`content` — so a property-keyed tag with empty or missing content skips the
name-keyed tag and falls through to the title.  A truthy (possibly
whitespace-only) content or title string is returned stripped; the first
`<h1>`'s text is returned without any emptiness check. -/
def get_og_name (soup : Soup) : Option String :=
  let tag := soup.ogPropTag <|> soup.ogNameTag
  let fromTag : Option String :=
    match tag with
    | some (some c) => if c = "" then none else some (pystrip c)
    | _ => none
  match fromTag with
  | some v => some v
  | none =>
    match soup.titleStr with
    | some t => if t = "" then soup.h1Text else some (pystrip t)
    | none => soup.h1Text

/-- The `require` failure condition: `not v or (isinstance(v, str) and not
v.strip())`, which for an optional string is: absent, or whitespace-only
(stripping the empty string is also empty, so `not v` on `""` is subsumed). -/
def failsReq : Option String → Bool
  | none => true
  | some s => pystrip s = ""

/-- `require` (source lines 64-67). -/
def require (v : Option String) (field domain : String) : Except PyErr String :=
  match v with
  | none => .error (.valueError (domain ++ ": missing required field -> " ++ field))
  | some s =>
    if pystrip s = "" then
      .error (.valueError (domain ++ ": missing required field -> " ++ field))
    else .ok s

/-- Source line 77: `cfg.get("selectors", {}).get("og_name", {}).get("url")
or cfg["contact_pages"][0]` — a missing or empty URL falls back to the first
contact page (`p0`). -/
def og_url (cfg : Config) (p0 : String) : String :=
  match cfg.selectors.og_name with
  | some og =>
    match og.url with
    | some u => if u = "" then p0 else u
    | none => p0
  | none => p0

/-- Source lines 71-74: fetch every contact page, join the extracted texts
with single spaces in declaration order. -/
def combined_text (fetchFn : String → Soup) (pages : List String) : String :=
  String.intercalate " " (pages.map fun u => (fetchFn u).bodyText)

/-- Source line 78: `soups[0] if og_url == cfg["contact_pages"][0] else
fetch(og_url)[0]` — only equality with the FIRST page reuses a fetched soup. -/
def og_soup (fetchFn : String → Soup) (cfg : Config) (p0 : String) : Soup :=
  if og_url cfg p0 = p0 then fetchFn p0 else fetchFn (og_url cfg p0)

/-- Source lines 92-94: the contact-person source text — the override page is
fetched only when present and not among the declared contact pages. -/
def cp_text (fetchFn : String → Soup) (pages : List String) (text : String)
    (cpsel : CPRule) : String :=
  match cpsel.page with
  | some u => if u ∈ pages then text else (fetchFn u).bodyText
  | none => text

/-- The extra URL (if any) the contact-person branch fetches. -/
def cp_extra_fetch (pages : List String) (cpsel : CPRule) : List String :=
  match cpsel.page with
  | some u => if u ∈ pages then [] else [u]
  | none => []

/-- Source line 95: `re.search(cpsel.get("regex", r"$a"), ctext, re.I|re.S)`;
the default pattern never matches any text. -/
def cp_search (cpsel : CPRule) (ctext : String) : Option CPMatch :=
  match cpsel.regex with
  | some p => p ctext
  | none => none

/-- Source lines 95-99, the non-static branch: on a match, `name` is group 1
stripped (`AttributeError` if group 1 did not participate), `phone` is group 2
stripped when `lastindex >= 2` and group 2 is truthy, the format template is
rendered and stripped; on no match `cp` stays `None`. -/
def cp_regex_branch (fetchFn : String → Soup) (pages : List String)
    (text : String) (cpsel : CPRule) : List String × Except PyErr (Option String) :=
  let ctext := cp_text fetchFn pages text cpsel
  (cp_extra_fetch pages cpsel,
    match cp_search cpsel ctext with
    | none => .ok none
    | some m =>
      match m.g1 with
      | none => .error .attributeError
      | some g =>
        let nameV := pystrip g
        let phoneV :=
          match m.lastindex, m.g2 with
          | some li, some g2v => if 2 ≤ li ∧ g2v ≠ "" then pystrip g2v else ""
          | _, _ => ""
        match pyFormat (cpsel.format.getD "{name} {phone}") nameV phoneV with
        | some s => .ok (some (pystrip s))
        | none => .error .formatError)

/-- Source lines 88-99: a truthy `static` short-circuits the regex branch. -/
def cp_resolve (fetchFn : String → Soup) (pages : List String) (text : String)
    (cpsel : CPRule) : List String × Except PyErr (Option String) :=
  match cpsel.static with
  | some s => if s = "" then cp_regex_branch fetchFn pages text cpsel else ([], .ok (some s))
  | none => cp_regex_branch fetchFn pages text cpsel

/-- The URLs the contact-person resolution passes to `fetch`: none when a
truthy `static` short-circuits, otherwise the override page when it is set
and undeclared. -/
def cp_fetch_log (pages : List String) (cpsel : CPRule) : List String :=
  match cpsel.static with
  | some s => if s = "" then cp_extra_fetch pages cpsel else []
  | none => cp_extra_fetch pages cpsel

/-- The body of `scrape_domain` (source lines 69-110) for a non-empty page
list, instrumented with the ordered list of URLs passed to `fetch` (first
component).  `fetchFn` is the Page Fetcher/Parser collaborator. -/
def scrape_body (fetchFn : String → Soup) (domain : String) (cfg : Config)
    (p0 : String) (rest : List String) : List String × Except PyErr Record :=
    let pages := p0 :: rest
    let text := combined_text fetchFn pages
    let ogLog := if og_url cfg p0 = p0 then [] else [og_url cfg p0]
    match require (get_og_name (og_soup fetchFn cfg p0)) "NGO Name" domain with
    | .error e => (pages ++ ogLog, .error e)
    | .ok ngo_name =>
      match require (apply_rules text cfg.selectors.address) "Address" domain with
      | .error e => (pages ++ ogLog, .error e)
      | .ok address =>
        match require (extract_phones text cfg.selectors.phones) "Contact Number" domain with
        | .error e => (pages ++ ogLog, .error e)
        | .ok phones =>
          match require (apply_rules "" cfg.selectors.services) "Services Offered" domain with
          | .error e => (pages ++ ogLog, .error e)
          | .ok services =>
            let cpr := cp_resolve fetchFn pages text cfg.selectors.contact_person
            match cpr.2 with
            | .error e => (pages ++ ogLog ++ cpr.1, .error e)
            | .ok cp =>
              match require cp "Contact Person" domain with
              | .error e => (pages ++ ogLog ++ cpr.1, .error e)
              | .ok cpStr =>
                (pages ++ ogLog ++ cpr.1,
                  .ok { ngoName := ngo_name
                        website := "https://" ++ domain ++ "/"
                        address := address
                        servicesOffered := services
                        contactPerson := cpStr
                        contactNumber := phones
                        sourcePages := String.intercalate "; " pages })

/-- `scrape_domain`: an empty `contact_pages` models the Python `IndexError`
of `cfg["contact_pages"][0]`. -/
def scrape_run (fetchFn : String → Soup) (domain : String) (cfg : Config) :
    List String × Except PyErr Record :=
  match cfg.contact_pages with
  | [] => ([], .error .indexError)
  | p0 :: rest => scrape_body fetchFn domain cfg p0 rest

/-! ## Helper lemmas -/

lemma firstMatch_eq_none (ps : List SearchPat) (text : String)
    (h : ∀ p ∈ ps, p text = none) : firstMatch ps text = none := by
  induction ps with
  | nil => rfl
  | cons p ps ih =>
    simp only [firstMatch]
    rw [h p (by simp)]
    exact ih fun q hq => h q (by simp [hq])

lemma firstMatch_first (ps1 : List SearchPat) (p : SearchPat) (ps2 : List SearchPat)
    (text m : String) (h1 : ∀ q ∈ ps1, q text = none) (hp : p text = some m) :
    firstMatch (ps1 ++ p :: ps2) text = some (pystrip m) := by
  induction ps1 with
  | nil => simp only [List.nil_append, firstMatch]; rw [hp]
  | cons q qs ih =>
    simp only [List.cons_append, firstMatch]
    rw [h1 q (by simp)]
    exact ih fun q' hq' => h1 q' (by simp [hq'])

lemma foldl_append_eq_flatten (text : String) (pats : List FindPat) :
    ∀ acc : List String,
      pats.foldl (fun acc p => acc ++ p text) acc
        = acc ++ (pats.map (fun p => p text)).flatten := by
  induction pats with
  | nil => intro acc; simp
  | cons p ps ih => intro acc; simp [List.foldl_cons, ih, List.append_assoc]

lemma mem_dedupAux (x : String) :
    ∀ (l seen : List String), x ∈ dedupAux seen l ↔ x ∈ l ∧ x ∉ seen := by
  intro l
  induction l with
  | nil => intro seen; simp [dedupAux]
  | cons y ys ih =>
    intro seen
    simp only [dedupAux]
    by_cases hy : y ∈ seen
    · rw [if_pos hy, ih]
      constructor
      · rintro ⟨hxy, hxs⟩; exact ⟨List.mem_cons_of_mem _ hxy, hxs⟩
      · rintro ⟨hxy, hxs⟩
        rcases List.mem_cons.mp hxy with h | h
        · exact absurd (h ▸ hy) hxs
        · exact ⟨h, hxs⟩
    · rw [if_neg hy]
      constructor
      · intro hmem
        rcases List.mem_cons.mp hmem with rfl | hmem'
        · exact ⟨List.mem_cons_self _ _, hy⟩
        · obtain ⟨hxy, hxs⟩ := (ih (y :: seen)).mp hmem'
          exact ⟨List.mem_cons_of_mem _ hxy, fun hs => hxs (List.mem_cons_of_mem _ hs)⟩
      · rintro ⟨hxy, hxs⟩
        rcases List.mem_cons.mp hxy with rfl | hxy'
        · exact List.mem_cons_self _ _
        · by_cases hxy2 : x = y
          · exact hxy2 ▸ List.mem_cons_self _ _
          · exact List.mem_cons_of_mem _ ((ih (y :: seen)).mpr
              ⟨hxy', fun hs => (List.mem_cons.mp hs).elim hxy2 hxs⟩)

lemma dedupAux_sublist : ∀ (l seen : List String), (dedupAux seen l).Sublist l := by
  intro l
  induction l with
  | nil => intro seen; simp [dedupAux]
  | cons y ys ih =>
    intro seen
    simp only [dedupAux]
    by_cases hy : y ∈ seen
    · rw [if_pos hy]; exact (ih seen).trans (List.sublist_cons_self _ _)
    · rw [if_neg hy]; exact (ih (y :: seen)).cons₂ y

lemma dedupAux_nodup : ∀ (l seen : List String), (dedupAux seen l).Nodup := by
  intro l
  induction l with
  | nil => intro seen; simp [dedupAux]
  | cons y ys ih =>
    intro seen
    simp only [dedupAux]
    by_cases hy : y ∈ seen
    · rw [if_pos hy]; exact ih seen
    · rw [if_neg hy]
      refine List.nodup_cons.mpr ⟨fun hmem => ?_, ih (y :: seen)⟩
      exact ((mem_dedupAux y ys (y :: seen)).mp hmem).2 (List.mem_cons_self _ _)

lemma dedupFirst_sublist (l : List String) : (dedupFirst l).Sublist l :=
  dedupAux_sublist l []

lemma dedupFirst_nodup (l : List String) : (dedupFirst l).Nodup :=
  dedupAux_nodup l []

lemma mem_dedupFirst (x : String) (l : List String) : x ∈ dedupFirst l ↔ x ∈ l := by
  unfold dedupFirst
  rw [mem_dedupAux]
  simp

lemma orderedInsert_middle (r : String → String → Prop) [DecidableRel r] (x : String) :
    ∀ (l1 l2 : List String), (∀ b ∈ l1, ¬ r x b) → (∀ b ∈ l2, r x b) →
      List.orderedInsert r x (l1 ++ l2) = l1 ++ x :: l2 := by
  intro l1
  induction l1 with
  | nil =>
    intro l2 _ h2
    cases l2 with
    | nil => simp
    | cons b t => simp [List.orderedInsert, h2 b (List.mem_cons_self _ _)]
  | cons b t ih =>
    intro l2 h1 h2
    simp only [List.cons_append, List.orderedInsert]
    rw [if_neg (h1 b (List.mem_cons_self _ _))]
    congr 1
    exact ih l2 (fun c hc => h1 c (List.mem_cons_of_mem _ hc)) h2

lemma rankPref_eq_partition (prefer : List PrefPat) (l : List String) :
    rankPref prefer l
      = l.filter (fun p => prefMatch prefer p)
        ++ l.filter (fun p => !prefMatch prefer p) := by
  induction l with
  | nil => simp [rankPref]
  | cons x t ih =>
    unfold rankPref at ih ⊢
    simp only [List.insertionSort]
    rw [ih]
    by_cases hx : prefMatch prefer x
    · have h2 : ∀ b ∈ t.filter (fun p => prefMatch prefer p)
          ++ t.filter (fun p => !prefMatch prefer p),
          prefKey prefer x ≤ prefKey prefer b := by
        intro b _; simp [prefKey, hx]
      have := orderedInsert_middle
        (fun a b => prefKey prefer a ≤ prefKey prefer b) x [] _ (by simp) h2
      simp only [List.nil_append] at this
      rw [this]
      simp [List.filter_cons, hx]
    · have h1 : ∀ b ∈ t.filter (fun p => prefMatch prefer p),
          ¬ (prefKey prefer x ≤ prefKey prefer b) := by
        intro b hb
        have hbm := (List.mem_filter.mp hb).2
        simp [prefKey, hx, hbm]
      have h2 : ∀ b ∈ t.filter (fun p => !prefMatch prefer p),
          prefKey prefer x ≤ prefKey prefer b := by
        intro b hb
        have hbm := (List.mem_filter.mp hb).2
        simp only [Bool.not_eq_true'] at hbm
        simp [prefKey, hx, hbm]
      rw [orderedInsert_middle _ x _ _ h1 h2]
      simp [List.filter_cons, hx]

lemma rankPref_perm (prefer : List PrefPat) (l : List String) :
    (rankPref prefer l).Perm l :=
  List.perm_insertionSort _ l

lemma failsReq_false_iff (v : Option String) :
    failsReq v = false ↔ ∃ s, v = some s ∧ pystrip s ≠ "" := by
  cases v with
  | none => simp [failsReq]
  | some s => simp [failsReq]

lemma require_of_fails (v : Option String) (field domain : String)
    (h : failsReq v = true) :
    require v field domain
      = .error (.valueError (domain ++ ": missing required field -> " ++ field)) := by
  cases v with
  | none => rfl
  | some s =>
    simp only [failsReq, decide_eq_true_eq] at h
    simp [require, h]

lemma require_of_ok (v : Option String) (field domain : String)
    (h : failsReq v = false) :
    ∃ s, v = some s ∧ require v field domain = .ok s ∧ pystrip s ≠ "" := by
  cases v with
  | none => simp [failsReq] at h
  | some s =>
    simp only [failsReq, decide_eq_false_iff_not] at h
    exact ⟨s, rfl, by simp [require, h], h⟩

lemma cp_resolve_fst (fetchFn : String → Soup) (pages : List String) (text : String)
    (cpsel : CPRule) : (cp_resolve fetchFn pages text cpsel).1 = cp_fetch_log pages cpsel := by
  unfold cp_resolve cp_fetch_log
  cases cpsel.static with
  | none => rfl
  | some s =>
    by_cases hs : s = ""
    · simp [hs, cp_regex_branch]
    · simp [hs]

lemma scrape_body_name_fail (fetchFn : String → Soup) (domain : String) (cfg : Config)
    (p0 : String) (rest : List String)
    (h : failsReq (get_og_name (og_soup fetchFn cfg p0)) = true) :
    scrape_body fetchFn domain cfg p0 rest =
      ((p0 :: rest) ++ (if og_url cfg p0 = p0 then [] else [og_url cfg p0]),
        .error (.valueError (domain ++ ": missing required field -> " ++ "NGO Name"))) := by
  simp only [scrape_body]
  rw [require_of_fails _ _ _ h]

lemma scrape_body_addr_fail (fetchFn : String → Soup) (domain : String) (cfg : Config)
    (p0 : String) (rest : List String)
    (h1 : failsReq (get_og_name (og_soup fetchFn cfg p0)) = false)
    (h2 : failsReq (apply_rules (combined_text fetchFn (p0 :: rest))
        cfg.selectors.address) = true) :
    scrape_body fetchFn domain cfg p0 rest =
      ((p0 :: rest) ++ (if og_url cfg p0 = p0 then [] else [og_url cfg p0]),
        .error (.valueError (domain ++ ": missing required field -> " ++ "Address"))) := by
  obtain ⟨s1, -, hr1, -⟩ := require_of_ok _ "NGO Name" domain h1
  simp only [scrape_body]
  rw [hr1, require_of_fails _ _ _ h2]

lemma scrape_body_phone_fail (fetchFn : String → Soup) (domain : String) (cfg : Config)
    (p0 : String) (rest : List String)
    (h1 : failsReq (get_og_name (og_soup fetchFn cfg p0)) = false)
    (h2 : failsReq (apply_rules (combined_text fetchFn (p0 :: rest))
        cfg.selectors.address) = false)
    (h3 : failsReq (extract_phones (combined_text fetchFn (p0 :: rest))
        cfg.selectors.phones) = true) :
    scrape_body fetchFn domain cfg p0 rest =
      ((p0 :: rest) ++ (if og_url cfg p0 = p0 then [] else [og_url cfg p0]),
        .error (.valueError (domain ++ ": missing required field -> " ++ "Contact Number"))) := by
  obtain ⟨s1, -, hr1, -⟩ := require_of_ok _ "NGO Name" domain h1
  obtain ⟨s2, -, hr2, -⟩ := require_of_ok _ "Address" domain h2
  simp only [scrape_body]
  rw [hr1, hr2, require_of_fails _ _ _ h3]

lemma scrape_body_serv_fail (fetchFn : String → Soup) (domain : String) (cfg : Config)
    (p0 : String) (rest : List String)
    (h1 : failsReq (get_og_name (og_soup fetchFn cfg p0)) = false)
    (h2 : failsReq (apply_rules (combined_text fetchFn (p0 :: rest))
        cfg.selectors.address) = false)
    (h3 : failsReq (extract_phones (combined_text fetchFn (p0 :: rest))
        cfg.selectors.phones) = false)
    (h4 : failsReq (apply_rules "" cfg.selectors.services) = true) :
    scrape_body fetchFn domain cfg p0 rest =
      ((p0 :: rest) ++ (if og_url cfg p0 = p0 then [] else [og_url cfg p0]),
        .error (.valueError (domain ++ ": missing required field -> " ++ "Services Offered"))) := by
  obtain ⟨s1, -, hr1, -⟩ := require_of_ok _ "NGO Name" domain h1
  obtain ⟨s2, -, hr2, -⟩ := require_of_ok _ "Address" domain h2
  obtain ⟨s3, -, hr3, -⟩ := require_of_ok _ "Contact Number" domain h3
  simp only [scrape_body]
  rw [hr1, hr2, hr3, require_of_fails _ _ _ h4]

lemma scrape_body_cp_err (fetchFn : String → Soup) (domain : String) (cfg : Config)
    (p0 : String) (rest : List String) (e : PyErr)
    (h1 : failsReq (get_og_name (og_soup fetchFn cfg p0)) = false)
    (h2 : failsReq (apply_rules (combined_text fetchFn (p0 :: rest))
        cfg.selectors.address) = false)
    (h3 : failsReq (extract_phones (combined_text fetchFn (p0 :: rest))
        cfg.selectors.phones) = false)
    (h4 : failsReq (apply_rules "" cfg.selectors.services) = false)
    (hcp : (cp_resolve fetchFn (p0 :: rest) (combined_text fetchFn (p0 :: rest))
        cfg.selectors.contact_person).2 = .error e) :
    scrape_body fetchFn domain cfg p0 rest =
      ((p0 :: rest) ++ (if og_url cfg p0 = p0 then [] else [og_url cfg p0])
          ++ cp_fetch_log (p0 :: rest) cfg.selectors.contact_person,
        .error e) := by
  obtain ⟨s1, -, hr1, -⟩ := require_of_ok _ "NGO Name" domain h1
  obtain ⟨s2, -, hr2, -⟩ := require_of_ok _ "Address" domain h2
  obtain ⟨s3, -, hr3, -⟩ := require_of_ok _ "Contact Number" domain h3
  obtain ⟨s4, -, hr4, -⟩ := require_of_ok _ "Services Offered" domain h4
  simp only [scrape_body]
  rw [hr1, hr2, hr3, hr4, cp_resolve_fst, hcp]

lemma scrape_body_cp_require_fail (fetchFn : String → Soup) (domain : String)
    (cfg : Config) (p0 : String) (rest : List String) (cpv : Option String)
    (h1 : failsReq (get_og_name (og_soup fetchFn cfg p0)) = false)
    (h2 : failsReq (apply_rules (combined_text fetchFn (p0 :: rest))
        cfg.selectors.address) = false)
    (h3 : failsReq (extract_phones (combined_text fetchFn (p0 :: rest))
        cfg.selectors.phones) = false)
    (h4 : failsReq (apply_rules "" cfg.selectors.services) = false)
    (hcp : (cp_resolve fetchFn (p0 :: rest) (combined_text fetchFn (p0 :: rest))
        cfg.selectors.contact_person).2 = .ok cpv)
    (h5 : failsReq cpv = true) :
    scrape_body fetchFn domain cfg p0 rest =
      ((p0 :: rest) ++ (if og_url cfg p0 = p0 then [] else [og_url cfg p0])
          ++ cp_fetch_log (p0 :: rest) cfg.selectors.contact_person,
        .error (.valueError (domain ++ ": missing required field -> " ++ "Contact Person"))) := by
  obtain ⟨s1, -, hr1, -⟩ := require_of_ok _ "NGO Name" domain h1
  obtain ⟨s2, -, hr2, -⟩ := require_of_ok _ "Address" domain h2
  obtain ⟨s3, -, hr3, -⟩ := require_of_ok _ "Contact Number" domain h3
  obtain ⟨s4, -, hr4, -⟩ := require_of_ok _ "Services Offered" domain h4
  simp only [scrape_body]
  rw [hr1, hr2, hr3, hr4, cp_resolve_fst, hcp]
  dsimp only
  rw [require_of_fails _ _ _ h5]

lemma scrape_body_ok (fetchFn : String → Soup) (domain : String) (cfg : Config)
    (p0 : String) (rest : List String) (cpv : Option String)
    (h1 : failsReq (get_og_name (og_soup fetchFn cfg p0)) = false)
    (h2 : failsReq (apply_rules (combined_text fetchFn (p0 :: rest))
        cfg.selectors.address) = false)
    (h3 : failsReq (extract_phones (combined_text fetchFn (p0 :: rest))
        cfg.selectors.phones) = false)
    (h4 : failsReq (apply_rules "" cfg.selectors.services) = false)
    (hcp : (cp_resolve fetchFn (p0 :: rest) (combined_text fetchFn (p0 :: rest))
        cfg.selectors.contact_person).2 = .ok cpv)
    (h5 : failsReq cpv = false) :
    ∃ r : Record,
      scrape_body fetchFn domain cfg p0 rest =
        ((p0 :: rest) ++ (if og_url cfg p0 = p0 then [] else [og_url cfg p0])
            ++ cp_fetch_log (p0 :: rest) cfg.selectors.contact_person,
          .ok r)
      ∧ get_og_name (og_soup fetchFn cfg p0) = some r.ngoName
      ∧ apply_rules (combined_text fetchFn (p0 :: rest)) cfg.selectors.address
          = some r.address
      ∧ extract_phones (combined_text fetchFn (p0 :: rest)) cfg.selectors.phones
          = some r.contactNumber
      ∧ apply_rules "" cfg.selectors.services = some r.servicesOffered
      ∧ cpv = some r.contactPerson
      ∧ r.website = "https://" ++ domain ++ "/"
      ∧ r.sourcePages = String.intercalate "; " (p0 :: rest) := by
  obtain ⟨s1, hv1, hr1, -⟩ := require_of_ok _ "NGO Name" domain h1
  obtain ⟨s2, hv2, hr2, -⟩ := require_of_ok _ "Address" domain h2
  obtain ⟨s3, hv3, hr3, -⟩ := require_of_ok _ "Contact Number" domain h3
  obtain ⟨s4, hv4, hr4, -⟩ := require_of_ok _ "Services Offered" domain h4
  obtain ⟨s5, hv5, hr5, -⟩ := require_of_ok cpv "Contact Person" domain h5
  refine ⟨{ ngoName := s1, website := "https://" ++ domain ++ "/", address := s2,
            servicesOffered := s4, contactPerson := s5, contactNumber := s3,
            sourcePages := String.intercalate "; " (p0 :: rest) },
      ?_, hv1, hv2, hv3, hv4, hv5, rfl, rfl⟩
  simp only [scrape_body]
  rw [hr1, hr2, hr3, hr4, cp_resolve_fst, hcp]
  dsimp only
  rw [hr5]

lemma apply_rules_none_of (text : String) (r : Rule)
    (hst : ∀ v, r.static = some v → v.truthy = false)
    (hpat : ∀ p ∈ r.regex_any, p text = none) : apply_rules text r = none := by
  unfold apply_rules
  cases hv : r.static with
  | none => exact firstMatch_eq_none _ _ hpat
  | some v =>
    dsimp only
    rw [hst v hv]
    simpa using firstMatch_eq_none _ _ hpat

lemma phoneRanked_length (text : String) (rules : PhoneRule) :
    (phoneRanked text rules).length = (phoneCands text rules).length := by
  unfold phoneRanked
  split
  · rfl
  · exact (rankPref_perm _ _).length_eq

lemma phoneMinK_pos (rules : PhoneRule) : 1 ≤ phoneMinK rules := by
  unfold phoneMinK
  have h : (1 : Int) ≤ max 1 (rules.required_min.getD 1) := le_max_left _ _
  omega

lemma extract_phones_none_of_empty (text : String) (rules : PhoneRule)
    (h : rules.regex_any = some []) : extract_phones text rules = none := by
  have hc : collect_phones text rules = [] := by
    unfold collect_phones; rw [h]; rfl
  have hcand : phoneCands text rules = [] := by
    unfold phoneCands; rw [hc]; rfl
  have hrank : phoneRanked text rules = [] := by
    unfold phoneRanked
    rw [hcand]
    split <;> simp [rankPref]
  have hk := phoneMinK_pos rules
  unfold extract_phones
  rw [hrank, if_neg]
  simp only [List.length_nil]
  omega

lemma failsReq_some (v : Option String) (s : String)
    (h : failsReq v = false) (hv : v = some s) : pystrip s ≠ "" := by
  rw [hv] at h
  simpa [failsReq] using h

lemma scrape_run_eq_body (fetchFn : String → Soup) (domain : String) (cfg : Config)
    (p0 : String) (rest : List String) (hpages : cfg.contact_pages = p0 :: rest) :
    scrape_run fetchFn domain cfg = scrape_body fetchFn domain cfg p0 rest := by
  unfold scrape_run
  rw [hpages]

lemma scrape_ok_inv (fetchFn : String → Soup) (domain : String) (cfg : Config)
    (p0 : String) (rest : List String) (hpages : cfg.contact_pages = p0 :: rest)
    (r : Record) (hr : (scrape_run fetchFn domain cfg).2 = .ok r) :
    failsReq (get_og_name (og_soup fetchFn cfg p0)) = false
    ∧ failsReq (apply_rules (combined_text fetchFn (p0 :: rest)) cfg.selectors.address) = false
    ∧ failsReq (extract_phones (combined_text fetchFn (p0 :: rest)) cfg.selectors.phones) = false
    ∧ failsReq (apply_rules "" cfg.selectors.services) = false
    ∧ get_og_name (og_soup fetchFn cfg p0) = some r.ngoName
    ∧ apply_rules (combined_text fetchFn (p0 :: rest)) cfg.selectors.address = some r.address
    ∧ extract_phones (combined_text fetchFn (p0 :: rest)) cfg.selectors.phones
        = some r.contactNumber
    ∧ apply_rules "" cfg.selectors.services = some r.servicesOffered
    ∧ ∃ cpv, (cp_resolve fetchFn (p0 :: rest) (combined_text fetchFn (p0 :: rest))
          cfg.selectors.contact_person).2 = .ok cpv
        ∧ cpv = some r.contactPerson ∧ failsReq cpv = false := by
  rw [scrape_run_eq_body fetchFn domain cfg p0 rest hpages] at hr
  cases h1 : failsReq (get_og_name (og_soup fetchFn cfg p0)) with
  | true => rw [scrape_body_name_fail fetchFn domain cfg p0 rest h1] at hr; exact absurd hr (by simp)
  | false =>
  cases h2 : failsReq (apply_rules (combined_text fetchFn (p0 :: rest)) cfg.selectors.address) with
  | true => rw [scrape_body_addr_fail fetchFn domain cfg p0 rest h1 h2] at hr; exact absurd hr (by simp)
  | false =>
  cases h3 : failsReq (extract_phones (combined_text fetchFn (p0 :: rest)) cfg.selectors.phones) with
  | true => rw [scrape_body_phone_fail fetchFn domain cfg p0 rest h1 h2 h3] at hr; exact absurd hr (by simp)
  | false =>
  cases h4 : failsReq (apply_rules "" cfg.selectors.services) with
  | true => rw [scrape_body_serv_fail fetchFn domain cfg p0 rest h1 h2 h3 h4] at hr; exact absurd hr (by simp)
  | false =>
  cases hcp : (cp_resolve fetchFn (p0 :: rest) (combined_text fetchFn (p0 :: rest))
      cfg.selectors.contact_person).2 with
  | error e =>
    rw [scrape_body_cp_err fetchFn domain cfg p0 rest e h1 h2 h3 h4 hcp] at hr
    exact absurd hr (by simp)
  | ok cpv =>
  cases h5 : failsReq cpv with
  | true =>
    rw [scrape_body_cp_require_fail fetchFn domain cfg p0 rest cpv h1 h2 h3 h4 hcp h5] at hr
    exact absurd hr (by simp)
  | false =>
    obtain ⟨r', hbody, hnm, had, hph, hsv, hcpv, -, -⟩ :=
      scrape_body_ok fetchFn domain cfg p0 rest cpv h1 h2 h3 h4 hcp h5
    rw [hbody] at hr
    simp only at hr
    injection hr with hr
    subst hr
    exact ⟨rfl, rfl, rfl, rfl, hnm, had, hph, hsv, cpv, rfl, hcpv, h5⟩

/-! ## Claim theorems -/

/-- C3: `apply_rules` returns the rendered `Static` value whenever one is
present and truthy — a sequence joined with "; ", a single string as-is —
independently of the pattern list (no pattern search is performed); otherwise
it returns the stripped whole-match text of the first pattern whose search
succeeds, never consulting the later patterns; and `none` (the "no match"
outcome) when no pattern matches. -/
theorem spec_C3 (text : String) (r : Rule) :
    (∀ v, r.static = some v → v.truthy = true →
      apply_rules text r = some v.render
      ∧ ∀ pats : List SearchPat,
          apply_rules text { static := r.static, regex_any := pats } = some v.render)
    ∧ ((∀ v, r.static = some v → v.truthy = false) →
      ((∀ p ∈ r.regex_any, p text = none) → apply_rules text r = none)
      ∧ (∀ (ps1 : List SearchPat) (p : SearchPat) (ps2 : List SearchPat) (m : String),
          r.regex_any = ps1 ++ p :: ps2 →
          (∀ q ∈ ps1, q text = none) → p text = some m →
          apply_rules text r = some (pystrip m))) := by
  constructor
  · intro v hv ht
    constructor
    · simp [apply_rules, hv, ht]
    · intro pats
      simp [apply_rules, hv, ht]
  · intro hst
    constructor
    · intro hnone
      exact apply_rules_none_of text r hst hnone
    · intro ps1 p ps2 m hra h1 hp
      unfold apply_rules
      cases hv : r.static with
      | none =>
        rw [hra]
        exact firstMatch_first ps1 p ps2 text m h1 hp
      | some v =>
        dsimp only
        rw [hst v hv]
        simp only [Bool.false_eq_true, if_false]
        rw [hra]
        exact firstMatch_first ps1 p ps2 text m h1 hp

/-- Witness for C3: a concrete rule with a truthy static sequence and a
(matching) pattern still yields the joined static value; and with no static,
the first matching pattern wins. -/
theorem spec_C3_witness :
    apply_rules "page text"
        { static := some (.seq ["Food", "Health"]),
          regex_any := [fun _ => some " ignored "] } = some "Food; Health"
    ∧ apply_rules "page text"
        { static := none,
          regex_any := [fun _ => none, fun _ => some " 12 High St ", fun _ => some "later"] }
      = some "12 High St" := by
  constructor
  · exact ((spec_C3 "page text"
      { static := some (.seq ["Food", "Health"]),
        regex_any := [fun _ => some " ignored "] }).1 (.seq ["Food", "Health"]) rfl rfl).1
  · have h := ((spec_C3 "page text"
      { static := none,
        regex_any := [fun _ => none, fun _ => some " 12 High St ",
          fun _ => some "later"] }).2 (fun v hv => nomatch hv)).2
      [fun _ => none] (fun _ => some " 12 High St ") [fun _ => some "later"]
      " 12 High St " rfl
      (by intro q hq; rw [List.mem_singleton] at hq; subst hq; rfl) rfl
    rw [h]
    decide

/-- C6: with preference patterns, the phone ranking is a stable partition:
every candidate matching some preference pattern precedes every candidate
matching none, each side keeps the dedup order, and no candidate is added or
removed (all counts are preserved); in particular `[A, B, C]` where only `B`
is preferred becomes `[B, A, C]`. -/
theorem spec_C6 :
    (∀ (prefer : List PrefPat) (cands : List String),
      rankPref prefer cands
          = cands.filter (fun p => prefMatch prefer p)
            ++ cands.filter (fun p => !prefMatch prefer p)
        ∧ ∀ x, (rankPref prefer cands).count x = cands.count x)
    ∧ rankPref [fun s => s == "B"] ["A", "B", "C"] = ["B", "A", "C"] := by
  refine ⟨fun prefer cands => ⟨rankPref_eq_partition prefer cands,
    fun x => (rankPref_perm prefer cands).count_eq x⟩, ?_⟩
  decide

/-- Counterexample to C4's concrete example: the built-in `PHONE_RE` is
`(?:\+?\d[\s-]?){7,15}\d`, which requires at least 8 digits, so the 7-digit
`555-1234` never matches: the text yields no candidates at all and phone
resolution returns `none` ("no match"), not `"555-1234, 555-5678"`. -/
theorem spec_C4_cex :
    extract_phones "555-1234 ... 555-1234 ... 555-5678"
        { regex_any := none, prefer := [], required_min := none } = none
    ∧ extract_phones "555-1234 ... 555-1234 ... 555-5678"
        { regex_any := none, prefer := [], required_min := none }
      ≠ some "555-1234, 555-5678" := by
  constructor
  · decide
  · decide

/-- C4 (amended): candidates are all matches of every supplied `RegexAny`
pattern, in pattern-then-position order (the per-pattern match lists
concatenated in pattern order), or the built-in generic pattern's matches
when `RegexAny` is not supplied; they are then deduplicated keeping the first
occurrence of each value in first-seen order.  The built-in pattern requires
8-16 digits, so the concrete dedup example needs 8-digit numbers:
`"5555-1234 ... 5555-1234 ... 5555-5678"` yields `"5555-1234, 5555-5678"`. -/
theorem spec_C4 (text : String) (rules : PhoneRule) :
    (∀ pats, rules.regex_any = some pats →
      collect_phones text rules = (pats.map (fun p => p text)).flatten)
    ∧ (rules.regex_any = none → collect_phones text rules = phone_re_findall text)
    ∧ (phoneCands text rules).Nodup
    ∧ (phoneCands text rules).Sublist (collect_phones text rules)
    ∧ (∀ x, x ∈ phoneCands text rules ↔ x ∈ collect_phones text rules)
    ∧ extract_phones "5555-1234 ... 5555-1234 ... 5555-5678"
        { regex_any := none, prefer := [], required_min := none }
      = some "5555-1234, 5555-5678" := by
  refine ⟨?_, ?_, dedupFirst_nodup _, dedupFirst_sublist _,
    fun x => mem_dedupFirst x _, by decide⟩
  · intro pats hp
    unfold collect_phones
    rw [hp]
    exact (foldl_append_eq_flatten text pats []).trans (by simp)
  · intro hp
    unfold collect_phones
    rw [hp]

/-- Witness for C4: a supplied pattern list produces the concatenation of the
per-pattern matches in order. -/
theorem spec_C4_witness :
    collect_phones "x"
        { regex_any := some [fun t => [t, t], fun _ => ["z"]],
          prefer := [], required_min := none } = ["x", "x", "z"] := by
  rw [(spec_C4 "x" _).1 [fun t => [t, t], fun _ => ["z"]] rfl]
  decide

/-- C5: with `k = max(1, requiredMin)`, fewer than `k` distinct deduplicated
candidates yields `none` ("no match"); otherwise the result is exactly the
first `max(k, 3)` entries of the (possibly preference-ranked) candidate list
joined with ", " — that is `min (max k 3) |candidates|` of them, and in found
order whenever there is no preference pattern. -/
theorem spec_C5 (text : String) (rules : PhoneRule) :
    ((phoneCands text rules).length < phoneMinK rules →
      extract_phones text rules = none)
    ∧ (phoneMinK rules ≤ (phoneCands text rules).length →
      ∃ sel : List String,
        extract_phones text rules = some (String.intercalate ", " sel)
        ∧ sel = (phoneRanked text rules).take (max (phoneMinK rules) 3)
        ∧ sel.length = min (max (phoneMinK rules) 3) (phoneCands text rules).length
        ∧ (rules.prefer = [] →
            sel = (phoneCands text rules).take (max (phoneMinK rules) 3))) := by
  constructor
  · intro h
    unfold extract_phones
    rw [if_neg]
    rw [phoneRanked_length]
    omega
  · intro h
    refine ⟨(phoneRanked text rules).take (max (phoneMinK rules) 3), ?_, rfl, ?_, ?_⟩
    · unfold extract_phones
      rw [if_pos]
      rw [phoneRanked_length]
      exact h
    · rw [List.length_take, phoneRanked_length]
    · intro hpref
      unfold phoneRanked
      rw [hpref]
      simp

/-- Witness for C5: five distinct candidates with `requiredMin = 1` and no
preference give exactly the first three in found order; one distinct
candidate with `requiredMin = 2` fails. -/
theorem spec_C5_witness :
    extract_phones ""
        { regex_any := some [fun _ => ["1", "2", "3", "4", "5"]],
          prefer := [], required_min := some 1 } = some "1, 2, 3"
    ∧ extract_phones ""
        { regex_any := some [fun _ => ["111"]],
          prefer := [], required_min := some 2 } = none := by
  constructor
  · obtain ⟨sel, hres, hsel, -, -⟩ := (spec_C5 ""
      { regex_any := some [fun _ => ["1", "2", "3", "4", "5"]],
        prefer := [], required_min := some 1 }).2 (by decide)
    rw [hres, hsel]
    decide
  · exact (spec_C5 ""
      { regex_any := some [fun _ => ["111"]],
        prefer := [], required_min := some 2 }).1 (by decide)

/-- C10: a `regex_any` key holding an empty pattern list collects zero
candidates — the built-in generic pattern applies only when the key is
entirely absent — so phone resolution is `none` for every text, and a
configuration with such a phone rule always fails on the Contact Number
field once the earlier fields pass, whatever the pages contain. -/
theorem spec_C10 :
    (∀ (text : String) (prefer : List PrefPat) (rm : Option Int),
      collect_phones text { regex_any := some [], prefer := prefer, required_min := rm } = []
      ∧ extract_phones text { regex_any := some [], prefer := prefer, required_min := rm }
          = none)
    ∧ (∀ (text : String) (rules : PhoneRule), rules.regex_any = none →
        collect_phones text rules = phone_re_findall text)
    ∧ (∀ (fetchFn : String → Soup) (domain : String) (cfg : Config) (p0 : String)
        (rest : List String), cfg.contact_pages = p0 :: rest →
        cfg.selectors.phones.regex_any = some [] →
        failsReq (get_og_name (og_soup fetchFn cfg p0)) = false →
        failsReq (apply_rules (combined_text fetchFn (p0 :: rest))
            cfg.selectors.address) = false →
        (scrape_run fetchFn domain cfg).2
          = .error (.valueError (domain ++ ": missing required field -> " ++ "Contact Number"))) := by
  refine ⟨fun text prefer rm => ⟨rfl, extract_phones_none_of_empty _ _ rfl⟩,
    fun text rules h => by unfold collect_phones; rw [h], ?_⟩
  intro fetchFn domain cfg p0 rest hpages hempty hn ha
  have hph : failsReq (extract_phones (combined_text fetchFn (p0 :: rest))
      cfg.selectors.phones) = true := by
    rw [extract_phones_none_of_empty _ _ hempty]
    rfl
  rw [scrape_run_eq_body fetchFn domain cfg p0 rest hpages,
    scrape_body_phone_fail fetchFn domain cfg p0 rest hn ha hph]

/-- Witness for C10 at a concrete configuration: name and address resolve,
the page text contains a phone-shaped number, yet the empty `RegexAny` list
makes the organization fail on Contact Number. -/
theorem spec_C10_witness :
    (scrape_run (fun _ => ⟨some (some "Helping Hands"), none, none, none,
        "Call 020 7946 0123 today"⟩) "helpinghands.org"
      ⟨["https://helpinghands.org/contact"],
        ⟨⟨some (.str "1 Main St"), []⟩,
         ⟨some [], [], none⟩,
         ⟨some (.str "Aid"), []⟩,
         ⟨some "CP", none, none, none⟩,
         none⟩⟩).2
      = .error (.valueError ("helpinghands.org" ++ ": missing required field -> "
          ++ "Contact Number")) :=
  spec_C10.2.2 (fun _ => ⟨some (some "Helping Hands"), none, none, none,
      "Call 020 7946 0123 today"⟩) "helpinghands.org"
    ⟨["https://helpinghands.org/contact"],
      ⟨⟨some (.str "1 Main St"), []⟩,
       ⟨some [], [], none⟩,
       ⟨some (.str "Aid"), []⟩,
       ⟨some "CP", none, none, none⟩,
       none⟩⟩
    "https://helpinghands.org/contact" [] rfl rfl (by decide) (by decide)

/-- C7: without a (truthy) static value, when the contact-person pattern
matches the chosen source text, the resolution renders the format template
(default the name, a space, and the phone) with `name` = capture group 1
trimmed and `phone` = capture group 2 trimmed if the second group
participated in the match and is non-empty, else the empty string, and trims
the rendered result.  `hwf` is the match-object invariant that a
participating group 2 forces `lastindex ≥ 2`. -/
theorem spec_C7 (fetchFn : String → Soup) (pages : List String) (text : String)
    (cpsel : CPRule) (m : CPMatch) (g rendered : String)
    (hstatic : ∀ s, cpsel.static = some s → s = "")
    (hm : cp_search cpsel (cp_text fetchFn pages text cpsel) = some m)
    (hg1 : m.g1 = some g)
    (hwf : m.g2.isSome = true → ∃ li, m.lastindex = some li ∧ 2 ≤ li)
    (hfmt : pyFormat (cpsel.format.getD "{name} {phone}") (pystrip g)
        (match m.g2 with
         | some p => if p ≠ "" then pystrip p else ""
         | none => "") = some rendered) :
    (cp_resolve fetchFn pages text cpsel).2 = .ok (some (pystrip rendered)) := by
  have hbranch : (cp_regex_branch fetchFn pages text cpsel).2
      = .ok (some (pystrip rendered)) := by
    unfold cp_regex_branch
    dsimp only
    rw [hm]
    dsimp only
    rw [hg1]
    dsimp only
    have hphone :
        (match m.lastindex, m.g2 with
          | some li, some g2v => if 2 ≤ li ∧ g2v ≠ "" then pystrip g2v else ""
          | _, _ => "")
        = (match m.g2 with
           | some p => if p ≠ "" then pystrip p else ""
           | none => "") := by
      cases hg2 : m.g2 with
      | none => cases m.lastindex <;> rfl
      | some p =>
        obtain ⟨li, hli, h2li⟩ := hwf (by rw [hg2]; rfl)
        rw [hli]
        dsimp only
        by_cases hp : p = ""
        · simp [hp]
        · simp [hp, h2li]
    rw [hphone, hfmt]
  unfold cp_resolve
  cases hs : cpsel.static with
  | none => exact hbranch
  | some s =>
    rw [hstatic s hs]
    simpa using hbranch

/-- Witness for C7: the pattern-match result of `(\w+) - (\d{3}-\d{4})` on
`"Jane - 555-1234"` (groups `Jane` and `555-1234`, lastindex 2) renders as
`"Jane 555-1234"` under the default template and as `"555-1234 (Jane)"`
under `"{phone} ({name})"`. -/
theorem spec_C7_witness :
    (cp_resolve (fun _ => ⟨none, none, none, none, ""⟩) [] "Jane - 555-1234"
      ⟨none, none,
        some (fun t => if t = "Jane - 555-1234"
          then some ⟨some "Jane", some "555-1234", some 2⟩ else none),
        none⟩).2 = .ok (some "Jane 555-1234")
    ∧ (cp_resolve (fun _ => ⟨none, none, none, none, ""⟩) [] "Jane - 555-1234"
      ⟨none, none,
        some (fun t => if t = "Jane - 555-1234"
          then some ⟨some "Jane", some "555-1234", some 2⟩ else none),
        some "{phone} ({name})"⟩).2 = .ok (some "555-1234 (Jane)") := by
  constructor
  · exact spec_C7 (fun _ => ⟨none, none, none, none, ""⟩) [] "Jane - 555-1234"
      ⟨none, none,
        some (fun t => if t = "Jane - 555-1234"
          then some ⟨some "Jane", some "555-1234", some 2⟩ else none),
        none⟩
      ⟨some "Jane", some "555-1234", some 2⟩ "Jane" "Jane 555-1234"
      (fun s hs => nomatch hs) (by decide) rfl
      (fun _ => ⟨2, rfl, by decide⟩) (by decide)
  · exact spec_C7 (fun _ => ⟨none, none, none, none, ""⟩) [] "Jane - 555-1234"
      ⟨none, none,
        some (fun t => if t = "Jane - 555-1234"
          then some ⟨some "Jane", some "555-1234", some 2⟩ else none),
        some "{phone} ({name})"⟩
      ⟨some "Jane", some "555-1234", some 2⟩ "Jane" "555-1234 (Jane)"
      (fun s hs => nomatch hs) (by decide) rfl
      (fun _ => ⟨2, rfl, by decide⟩) (by decide)

/-- Counterexample to C8: a page whose property-keyed `og:site_name` content
is the single space `" "` (whitespace-only, so empty after trimming) and
whose title is `"Acme Org"` resolves to the empty string, not to the title:
whitespace-only content is truthy in Python, so `get_og_name` returns it
stripped instead of falling through. -/
theorem spec_C8_cex :
    get_og_name ⟨some (some " "), none, some "Acme Org", none, ""⟩ = some ""
    ∧ get_og_name ⟨some (some " "), none, some "Acme Org", none, ""⟩ ≠ some "Acme Org" := by
  constructor
  · rfl
  · decide

/-- C8 (amended): the resolver tries the property-keyed Open-Graph tag, the
name-keyed variant, the page title, then the first heading, but only an
absent tag or an EMPTY candidate falls through: a present non-empty (even
whitespace-only) content or title is accepted and returned trimmed —
possibly as the empty string, failing upstream — and a property-keyed tag
with empty or missing content skips the name-keyed variant entirely, while
the first heading's text is returned with no emptiness check. -/
theorem spec_C8 (soup : Soup) :
    (∀ c, soup.ogPropTag = some (some c) → c ≠ "" →
      get_og_name soup = some (pystrip c))
    ∧ (∀ c, soup.ogPropTag = none → soup.ogNameTag = some (some c) → c ≠ "" →
      get_og_name soup = some (pystrip c))
    ∧ (soup.ogPropTag = some none ∨ soup.ogPropTag = some (some "") →
      get_og_name soup
        = get_og_name ⟨none, none, soup.titleStr, soup.h1Text, soup.bodyText⟩)
    ∧ (∀ t, soup.ogPropTag = none → soup.ogNameTag = none →
      soup.titleStr = some t → t ≠ "" → get_og_name soup = some (pystrip t))
    ∧ (soup.ogPropTag = none → soup.ogNameTag = none →
      (soup.titleStr = none ∨ soup.titleStr = some "") →
      get_og_name soup = soup.h1Text)
    ∧ get_og_name ⟨none, none, some "Acme Org", none, ""⟩ = some "Acme Org" := by
  refine ⟨?_, ?_, ?_, ?_, ?_, by decide⟩
  · intro c hc hne
    unfold get_og_name
    rw [hc]
    simp [hne]
  · intro c hp hn hne
    unfold get_og_name
    rw [hp, hn]
    simp [hne]
  · rintro (hp | hp) <;>
      (unfold get_og_name; rw [hp]; cases hn : soup.ogNameTag <;> simp)
  · intro t hp hn ht hne
    unfold get_og_name
    rw [hp, hn, ht]
    simp [hne]
  · rintro hp hn (ht | ht) <;> (unfold get_og_name; rw [hp, hn, ht]) <;> simp

/-- Witness for C8: a leading/trailing-whitespace og site-name is returned
trimmed; with no og tag at all, a non-empty title wins even when an `<h1>`
is present. -/
theorem spec_C8_witness :
    get_og_name ⟨some (some " Acme Charity "), none, some "ignored title", some "H1", "b"⟩
      = some "Acme Charity"
    ∧ get_og_name ⟨none, none, some " Acme Org ", some "H1", "b"⟩ = some "Acme Org" := by
  constructor
  · exact (spec_C8 ⟨some (some " Acme Charity "), none, some "ignored title",
      some "H1", "b"⟩).1 " Acme Charity " rfl (by decide)
  · exact (spec_C8 ⟨none, none, some " Acme Org ", some "H1", "b"⟩).2.2.2.1
      " Acme Org " rfl rfl rfl (by decide)

/-- C2: required fields are validated in the order NGO Name (immediately upon
name resolution), Address, Contact Number, Services Offered, Contact Person;
the first field that is absent ("no match") or whitespace-only aborts record
building with `{domain}: missing required field -> {field}`; and a produced
record has every required field non-blank (no partial records). -/
theorem spec_C2 (fetchFn : String → Soup) (domain : String) (cfg : Config)
    (p0 : String) (rest : List String) (hpages : cfg.contact_pages = p0 :: rest) :
    (failsReq (get_og_name (og_soup fetchFn cfg p0)) = true →
      (scrape_run fetchFn domain cfg).2
        = .error (.valueError (domain ++ ": missing required field -> " ++ "NGO Name")))
    ∧ (failsReq (get_og_name (og_soup fetchFn cfg p0)) = false →
       failsReq (apply_rules (combined_text fetchFn (p0 :: rest))
          cfg.selectors.address) = true →
      (scrape_run fetchFn domain cfg).2
        = .error (.valueError (domain ++ ": missing required field -> " ++ "Address")))
    ∧ (failsReq (get_og_name (og_soup fetchFn cfg p0)) = false →
       failsReq (apply_rules (combined_text fetchFn (p0 :: rest))
          cfg.selectors.address) = false →
       failsReq (extract_phones (combined_text fetchFn (p0 :: rest))
          cfg.selectors.phones) = true →
      (scrape_run fetchFn domain cfg).2
        = .error (.valueError (domain ++ ": missing required field -> " ++ "Contact Number")))
    ∧ (failsReq (get_og_name (og_soup fetchFn cfg p0)) = false →
       failsReq (apply_rules (combined_text fetchFn (p0 :: rest))
          cfg.selectors.address) = false →
       failsReq (extract_phones (combined_text fetchFn (p0 :: rest))
          cfg.selectors.phones) = false →
       failsReq (apply_rules "" cfg.selectors.services) = true →
      (scrape_run fetchFn domain cfg).2
        = .error (.valueError (domain ++ ": missing required field -> " ++ "Services Offered")))
    ∧ (failsReq (get_og_name (og_soup fetchFn cfg p0)) = false →
       failsReq (apply_rules (combined_text fetchFn (p0 :: rest))
          cfg.selectors.address) = false →
       failsReq (extract_phones (combined_text fetchFn (p0 :: rest))
          cfg.selectors.phones) = false →
       failsReq (apply_rules "" cfg.selectors.services) = false →
       ∀ cpv, (cp_resolve fetchFn (p0 :: rest) (combined_text fetchFn (p0 :: rest))
          cfg.selectors.contact_person).2 = .ok cpv →
       failsReq cpv = true →
      (scrape_run fetchFn domain cfg).2
        = .error (.valueError (domain ++ ": missing required field -> " ++ "Contact Person")))
    ∧ (∀ r : Record, (scrape_run fetchFn domain cfg).2 = .ok r →
       failsReq (get_og_name (og_soup fetchFn cfg p0)) = false
       ∧ failsReq (apply_rules (combined_text fetchFn (p0 :: rest))
            cfg.selectors.address) = false
       ∧ failsReq (extract_phones (combined_text fetchFn (p0 :: rest))
            cfg.selectors.phones) = false
       ∧ failsReq (apply_rules "" cfg.selectors.services) = false
       ∧ pystrip r.ngoName ≠ "" ∧ pystrip r.address ≠ "" ∧ pystrip r.contactNumber ≠ ""
       ∧ pystrip r.servicesOffered ≠ "" ∧ pystrip r.contactPerson ≠ "") := by
  have hbody := scrape_run_eq_body fetchFn domain cfg p0 rest hpages
  refine ⟨?_, ?_, ?_, ?_, ?_, ?_⟩
  · intro h1
    rw [hbody, scrape_body_name_fail fetchFn domain cfg p0 rest h1]
  · intro h1 h2
    rw [hbody, scrape_body_addr_fail fetchFn domain cfg p0 rest h1 h2]
  · intro h1 h2 h3
    rw [hbody, scrape_body_phone_fail fetchFn domain cfg p0 rest h1 h2 h3]
  · intro h1 h2 h3 h4
    rw [hbody, scrape_body_serv_fail fetchFn domain cfg p0 rest h1 h2 h3 h4]
  · intro h1 h2 h3 h4 cpv hcp h5
    rw [hbody, scrape_body_cp_require_fail fetchFn domain cfg p0 rest cpv h1 h2 h3 h4 hcp h5]
  · intro r hr
    obtain ⟨h1, h2, h3, h4, hnm, had, hph, hsv, cpv, hcp, hcpv, h5⟩ :=
      scrape_ok_inv fetchFn domain cfg p0 rest hpages r hr
    exact ⟨h1, h2, h3, h4,
      failsReq_some _ _ h1 hnm, failsReq_some _ _ h2 had, failsReq_some _ _ h3 hph,
      failsReq_some _ _ h4 hsv, failsReq_some _ _ h5 hcpv⟩

/-- Witness for C2 at a concrete configuration whose address rule never
matches: the run fails naming the Address field. -/
theorem spec_C2_witness :
    (scrape_run (fun _ => ⟨some (some "Org"), none, none, none, "body"⟩) "acme.org"
      ⟨["https://acme.org/contact"],
        ⟨⟨none, [fun _ => none]⟩,
         ⟨some [fun _ => ["12345678"]], [], none⟩,
         ⟨some (.str "Aid"), []⟩,
         ⟨some "CP", none, none, none⟩,
         none⟩⟩).2
      = .error (.valueError ("acme.org" ++ ": missing required field -> " ++ "Address")) :=
  (spec_C2 (fun _ => ⟨some (some "Org"), none, none, none, "body"⟩) "acme.org"
    ⟨["https://acme.org/contact"],
      ⟨⟨none, [fun _ => none]⟩,
       ⟨some [fun _ => ["12345678"]], [], none⟩,
       ⟨some (.str "Aid"), []⟩,
       ⟨some "CP", none, none, none⟩,
       none⟩⟩
    "https://acme.org/contact" [] rfl).2.1 (by decide) (by decide)

/-- C1: the services rule is applied to the empty string, not to the combined
page text: a truthy `Static` value resolves to it (a sequence joined with
"; ") for every fetcher, and a services rule without a truthy static whose
patterns do not match the empty string resolves to `none` ("no match") for
every fetcher — no record can be produced, and once NGO Name, Address and
Contact Number pass, the run fails naming the Services Offered field,
regardless of the fetched pages' contents. -/
theorem spec_C1 (domain : String) (cfg : Config) (p0 : String) (rest : List String)
    (hpages : cfg.contact_pages = p0 :: rest) :
    (∀ v, cfg.selectors.services.static = some v → v.truthy = true →
      apply_rules "" cfg.selectors.services = some v.render
      ∧ ∀ (fetchFn : String → Soup) (r : Record),
          (scrape_run fetchFn domain cfg).2 = .ok r → r.servicesOffered = v.render)
    ∧ ((∀ v, cfg.selectors.services.static = some v → v.truthy = false) →
       (∀ p ∈ cfg.selectors.services.regex_any, p "" = none) →
       ∀ fetchFn : String → Soup,
         apply_rules "" cfg.selectors.services = none
         ∧ (∀ r : Record, (scrape_run fetchFn domain cfg).2 ≠ .ok r)
         ∧ (failsReq (get_og_name (og_soup fetchFn cfg p0)) = false →
            failsReq (apply_rules (combined_text fetchFn (p0 :: rest))
               cfg.selectors.address) = false →
            failsReq (extract_phones (combined_text fetchFn (p0 :: rest))
               cfg.selectors.phones) = false →
            (scrape_run fetchFn domain cfg).2
              = .error (.valueError
                  (domain ++ ": missing required field -> " ++ "Services Offered")))) := by
  constructor
  · intro v hv ht
    have hres : apply_rules "" cfg.selectors.services = some v.render := by
      simp [apply_rules, hv, ht]
    refine ⟨hres, ?_⟩
    intro fetchFn r hr
    obtain ⟨-, -, -, -, -, -, -, hsv, -⟩ :=
      scrape_ok_inv fetchFn domain cfg p0 rest hpages r hr
    rw [hres] at hsv
    exact (Option.some_injective _ hsv).symm
  · intro hst hpat fetchFn
    have hres : apply_rules "" cfg.selectors.services = none :=
      apply_rules_none_of "" cfg.selectors.services hst hpat
    have hfail : failsReq (apply_rules "" cfg.selectors.services) = true := by
      rw [hres]; rfl
    refine ⟨hres, ?_, ?_⟩
    · intro r hr
      obtain ⟨-, -, -, h4, -⟩ := scrape_ok_inv fetchFn domain cfg p0 rest hpages r hr
      rw [h4] at hfail
      exact absurd hfail (by simp)
    · intro h1 h2 h3
      rw [scrape_run_eq_body fetchFn domain cfg p0 rest hpages,
        scrape_body_serv_fail fetchFn domain cfg p0 rest h1 h2 h3 hfail]

/-- Witness for C1: a config whose services rule has only a pattern that does
not match the empty string fails on Services Offered although the fetched
page text would match it. -/
theorem spec_C1_witness :
    (scrape_run
        (fun _ => ⟨some (some "Org"), none, none, none, "We offer food aid"⟩) "acme.org"
      ⟨["https://acme.org/contact"],
        ⟨⟨some (.str "1 Main St"), []⟩,
         ⟨some [fun _ => ["12345678"]], [], none⟩,
         ⟨none, [fun t => if t = "" then none else some "food aid"]⟩,
         ⟨some "CP", none, none, none⟩,
         none⟩⟩).2
      = .error (.valueError ("acme.org" ++ ": missing required field -> "
          ++ "Services Offered")) :=
  ((spec_C1 "acme.org"
    ⟨["https://acme.org/contact"],
      ⟨⟨some (.str "1 Main St"), []⟩,
       ⟨some [fun _ => ["12345678"]], [], none⟩,
       ⟨none, [fun t => if t = "" then none else some "food aid"]⟩,
       ⟨some "CP", none, none, none⟩,
       none⟩⟩
    "https://acme.org/contact" [] rfl).2 (fun v hv => nomatch hv)
    (by intro p hp; rw [List.mem_singleton] at hp; subst hp; rfl)
    (fun _ => ⟨some (some "Org"), none, none, none, "We offer food aid"⟩)).2.2
    (by decide) (by decide) (by decide)

/-- Counterexample to C9: the og-page reuse check compares only against the
FIRST contact page, so an `ogName.url` equal to the second declared page
causes that page to be fetched twice even though a full record is produced:
the fetch log is `[a, b, b]` and `b`'s fetch count is 2, not 1. -/
theorem spec_C9_cex :
    (scrape_run (fun _ => ⟨some (some "Org"), none, none, none, "text"⟩) "ex.org"
      ⟨["https://a", "https://b"],
        ⟨⟨some (.str "1 Main St"), []⟩,
         ⟨some [fun _ => ["12345678"]], [], none⟩,
         ⟨some (.str "Aid"), []⟩,
         ⟨some "CP", none, none, none⟩,
         some ⟨some "https://b"⟩⟩⟩).1
      = ["https://a", "https://b", "https://b"]
    ∧ List.count "https://b"
        (scrape_run (fun _ => ⟨some (some "Org"), none, none, none, "text"⟩) "ex.org"
          ⟨["https://a", "https://b"],
            ⟨⟨some (.str "1 Main St"), []⟩,
             ⟨some [fun _ => ["12345678"]], [], none⟩,
             ⟨some (.str "Aid"), []⟩,
             ⟨some "CP", none, none, none⟩,
             some ⟨some "https://b"⟩⟩⟩).1 = 2
    ∧ ((scrape_run (fun _ => ⟨some (some "Org"), none, none, none, "text"⟩) "ex.org"
        ⟨["https://a", "https://b"],
          ⟨⟨some (.str "1 Main St"), []⟩,
           ⟨some [fun _ => ["12345678"]], [], none⟩,
           ⟨some (.str "Aid"), []⟩,
           ⟨some "CP", none, none, none⟩,
           some ⟨some "https://b"⟩⟩⟩).2).toOption.isSome = true := by
  refine ⟨?_, ?_, ?_⟩ <;> decide

/-- C9 (amended): when the four text fields pass, the fetch log is exactly
the declared contact pages in order, then the og page when `ogName.url`
differs from the FIRST declared page (so an og URL equal to a later declared
page is fetched a second time), then the contact-person override page when
the resolution reaches the non-static branch with an override outside the
declared list; consequently with an og URL equal to the first page, distinct
declared pages and no undeclared override fetch, every declared contact page
is fetched exactly once. -/
theorem spec_C9 (fetchFn : String → Soup) (domain : String) (cfg : Config)
    (p0 : String) (rest : List String) (hpages : cfg.contact_pages = p0 :: rest)
    (h1 : failsReq (get_og_name (og_soup fetchFn cfg p0)) = false)
    (h2 : failsReq (apply_rules (combined_text fetchFn (p0 :: rest))
        cfg.selectors.address) = false)
    (h3 : failsReq (extract_phones (combined_text fetchFn (p0 :: rest))
        cfg.selectors.phones) = false)
    (h4 : failsReq (apply_rules "" cfg.selectors.services) = false) :
    (scrape_run fetchFn domain cfg).1
      = (p0 :: rest) ++ (if og_url cfg p0 = p0 then [] else [og_url cfg p0])
        ++ cp_fetch_log (p0 :: rest) cfg.selectors.contact_person
    ∧ ((p0 :: rest).Nodup → og_url cfg p0 = p0 →
       cp_fetch_log (p0 :: rest) cfg.selectors.contact_person = [] →
       ∀ u ∈ p0 :: rest, List.count u (scrape_run fetchFn domain cfg).1 = 1) := by
  have hbody := scrape_run_eq_body fetchFn domain cfg p0 rest hpages
  have hlog : (scrape_run fetchFn domain cfg).1
      = (p0 :: rest) ++ (if og_url cfg p0 = p0 then [] else [og_url cfg p0])
        ++ cp_fetch_log (p0 :: rest) cfg.selectors.contact_person := by
    rw [hbody]
    cases hcp : (cp_resolve fetchFn (p0 :: rest) (combined_text fetchFn (p0 :: rest))
        cfg.selectors.contact_person).2 with
    | error e =>
      rw [scrape_body_cp_err fetchFn domain cfg p0 rest e h1 h2 h3 h4 hcp]
    | ok cpv =>
      cases h5 : failsReq cpv with
      | true =>
        rw [scrape_body_cp_require_fail fetchFn domain cfg p0 rest cpv h1 h2 h3 h4 hcp h5]
      | false =>
        obtain ⟨r, hb, -, -, -, -, -, -, -⟩ :=
          scrape_body_ok fetchFn domain cfg p0 rest cpv h1 h2 h3 h4 hcp h5
        rw [hb]
  refine ⟨hlog, ?_⟩
  intro hnd hog hcpl u hu
  rw [hlog, hcpl, if_pos hog]
  simpa using List.count_eq_one_of_mem hnd hu

/-- Witness for C9: with the og URL defaulting to the first page and a static
contact person, the fetch log is exactly the declared pages, each once. -/
theorem spec_C9_witness :
    (scrape_run (fun _ => ⟨some (some "Org"), none, none, none, "t"⟩) "ex.org"
      ⟨["https://a", "https://b"],
        ⟨⟨some (.str "1 Main St"), []⟩,
         ⟨some [fun _ => ["12345678"]], [], none⟩,
         ⟨some (.str "Aid"), []⟩,
         ⟨some "CP", none, none, none⟩,
         none⟩⟩).1 = ["https://a", "https://b"] := by
  have h := (spec_C9 (fun _ => ⟨some (some "Org"), none, none, none, "t"⟩) "ex.org"
    ⟨["https://a", "https://b"],
      ⟨⟨some (.str "1 Main St"), []⟩,
       ⟨some [fun _ => ["12345678"]], [], none⟩,
       ⟨some (.str "Aid"), []⟩,
       ⟨some "CP", none, none, none⟩,
       none⟩⟩
    "https://a" ["https://b"] rfl (by decide) (by decide) (by decide) (by decide)).1
  rw [h]
  decide
